import Mathlib

/-!
Shallow embedding of the `bender-config` repository (src/lib.rs, src/wizard.rs).

Rust strings are modelled as lists of bytes (`List Nat`, each < 256 where it
matters); `usize`/`u64` fields as `Nat`; `isize` fields as `Int`; fallible
operations as `Option`/`Except`.  Interactive terminal input (dialoguer
`Select`/`Input`) is modelled by passing the operator's choices explicitly;
terminal output is modelled only where observable (the count of interactive
prompts shown, and the rendered comparison banner).  A Rust panic (index out
of bounds, `usize` underflow, `chunks(0)`) is modelled as `Option.none`.
-/

namespace BenderConfig

/-- Checked `usize` subtraction: Rust `a - b` on `usize` panics on underflow
(debug semantics); `none` models the panic. -/
def checkedSub (a b : Nat) : Option Nat :=
  if b ≤ a then some (a - b) else none

/-- Fuel-driven worker for `chunks`; the fuel only makes the recursion
structural, `chunks` always supplies enough of it. -/
def chunksFuel (w : Nat) : Nat → List α → List (List α)
  | _, [] => []
  | 0, _ :: _ => []
  | fuel + 1, a :: rest =>
    if w = 0 then []
    else (a :: rest).take w :: chunksFuel w fuel ((a :: rest).drop w)

/-- `slice::chunks(w)`: splits a list into consecutive chunks of length `w`,
the last one possibly shorter.  Rust panics when `w = 0`; callers guard that
case separately (`compareprint` returns `none` there). -/
def chunks (w : Nat) (l : List α) : List (List α) :=
  chunksFuel w l.length l

/-- Is the byte a UTF-8 continuation byte (`0x80..=0xBF`)? -/
def isCont (b : Nat) : Bool :=
  decide (128 ≤ b) && decide (b ≤ 191)

/-- UTF-8 validity of a byte sequence, as checked by Rust `str::from_utf8`:
rejects continuation bytes out of place, overlong encodings, surrogates and
code points above U+10FFFF. -/
def utf8Valid : List Nat → Bool
  | [] => true
  | b :: rest =>
    if b ≤ 0x7F then utf8Valid rest
    else if 0xC2 ≤ b ∧ b ≤ 0xDF then
      match rest with
      | c1 :: rest2 => isCont c1 && utf8Valid rest2
      | [] => false
    else if b = 0xE0 then
      match rest with
      | c1 :: c2 :: rest3 =>
        decide (0xA0 ≤ c1) && decide (c1 ≤ 0xBF) && isCont c2 && utf8Valid rest3
      | _ => false
    else if (0xE1 ≤ b ∧ b ≤ 0xEC) ∨ b = 0xEE ∨ b = 0xEF then
      match rest with
      | c1 :: c2 :: rest3 => isCont c1 && isCont c2 && utf8Valid rest3
      | _ => false
    else if b = 0xED then
      match rest with
      | c1 :: c2 :: rest3 =>
        decide (0x80 ≤ c1) && decide (c1 ≤ 0x9F) && isCont c2 && utf8Valid rest3
      | _ => false
    else if b = 0xF0 then
      match rest with
      | c1 :: c2 :: c3 :: rest4 =>
        decide (0x90 ≤ c1) && decide (c1 ≤ 0xBF) && isCont c2 && isCont c3 &&
          utf8Valid rest4
      | _ => false
    else if 0xF1 ≤ b ∧ b ≤ 0xF3 then
      match rest with
      | c1 :: c2 :: c3 :: rest4 =>
        isCont c1 && isCont c2 && isCont c3 && utf8Valid rest4
      | _ => false
    else if b = 0xF4 then
      match rest with
      | c1 :: c2 :: c3 :: rest4 =>
        decide (0x80 ≤ c1) && decide (c1 ≤ 0x8F) && isCont c2 && isCont c3 &&
          utf8Valid rest4
      | _ => false
    else false

/-- `wizard::wrap`: chunk the byte string into `w`-byte pieces, keep only the
pieces `str::from_utf8` accepts (the source filters out `Err` results, so an
invalid chunk is silently dropped). -/
def wrap (s : List Nat) (w : Nat) : List (List Nat) :=
  (chunks w s).filter utf8Valid

/-- `str::chars().count()` on the byte representation: the number of bytes
that are not UTF-8 continuation bytes. -/
def charCount (l : List Nat) : Nat :=
  l.countP (fun b => !isCont b)

/-- The `"..."` ellipsis marker appended to a truncated side. -/
def dotsB : List Nat := [46, 46, 46]

/-- The `"!="` separator `differ` passes to `compareprint`. -/
def neSignB : List Nat := [33, 61]

/-- The source's `if left.len() > 1 {leftdots = "..."}`, phrased on the tail
of the wrapped lines. -/
def dotsIf (tail : List (List Nat)) : List Nat :=
  if tail.length + 1 > 1 then dotsB else []

/-- `wizard::compareprint`: renders the two values side by side.  Returns the
two rendered sides (first wrapped line, plus `"..."` when the value needed
more than one line), or `none` when the source panics: `usize` underflow in
`w/2 - signWidth/2` or `halfwidth - 4` or a spacer computation, `chunks(0)`,
or indexing line `[0]` of an empty wrap result. -/
def compareprint (leftB rightB : List Nat) (w : Nat) (signB : List Nat) :
    Option (List Nat × List Nat) :=
  match checkedSub (w / 2) (charCount signB / 2) with
  | none => none
  | some halfwidth =>
    match checkedSub halfwidth 4 with
    | none => none
    | some hw4 =>
      if hw4 = 0 then none
      else
        match wrap leftB hw4, wrap rightB hw4 with
        | l0 :: ltl, r0 :: rtl =>
          match checkedSub halfwidth (charCount l0 + charCount (dotsIf ltl)),
                checkedSub halfwidth (charCount r0 + charCount (dotsIf rtl)) with
          | some _, some _ => some (l0 ++ dotsIf ltl, r0 ++ dotsIf rtl)
          | _, _ => none
        | _, _ => none

/-- The operator's response to one `differ` call: the `Select` index chosen,
and — when the manual-override `Input` is reached — the parsed value finally
entered (`none` means the operator accepted the pre-filled default; parse
failures re-prompt inside `Input`, so only a successfully parsed value comes
out). -/
structure Operator (T : Type) where
  choice : Nat
  manualInput : Option T

/-- `wizard::differ`: compare `this` against the optional `opt_that`, show
the appropriate dialog, and return the chosen value together with the number
of interactive prompts shown.  `render` is `format!("{}", _)` as bytes and
`w` the terminal width, used by the comparison banner; `none` models the
panic propagated out of `compareprint`. -/
def differ [DecidableEq T] (this : T) (opt_that : Option T) (op : Operator T)
    (render : T → List Nat) (w : Nat) : Option (T × Nat) :=
  match opt_that with
  | some that =>
    if this = that then some (this, 0)
    else
      match compareprint (render this) (render that) w neSignB with
      | none => none
      | some _ =>
        if op.choice = 2 then some (op.manualInput.getD this, 2)
        else if op.choice = 1 then some (that, 1)
        else some (this, 1)
  | none =>
    if op.choice = 1 then some (op.manualInput.getD this, 2)
    else some (this, 1)

/-- UTF-8 encoding of one Unicode code point, as byte values. -/
def encodeCodepoint (n : Nat) : List Nat :=
  if n < 0x80 then [n]
  else if n < 0x800 then [0xC0 + n / 64, 0x80 + n % 64]
  else if n < 0x10000 then
    [0xE0 + n / 4096, 0x80 + (n / 64) % 64, 0x80 + n % 64]
  else
    [0xF0 + n / 262144, 0x80 + (n / 4096) % 64, 0x80 + (n / 64) % 64,
     0x80 + n % 64]

/-- `format!("{}", s)` for a string, as its UTF-8 bytes. -/
def strBytes (s : String) : List Nat :=
  s.data.flatMap (fun c => encodeCodepoint c.toNat)

/-- `format!("{}", n)` for a `usize`/`u64`, as bytes. -/
def natBytes (n : Nat) : List Nat :=
  strBytes (Nat.repr n)

/-- `format!("{}", n)` for an `isize`, as bytes. -/
def intBytes (n : Int) : List Nat :=
  strBytes (Int.repr n)

-- ========================= configuration structs =========================

/-- `Paths` (src/lib.rs): the three configured filesystem paths. -/
structure Paths where
  config : String
  «private» : String
  upload : String
deriving DecidableEq, Repr

/-- `Paths::default`. -/
def Paths.default : Paths :=
  { config := "/etc/bender/config.toml"
    «private» := "/var/lib/flask/private"
    upload := "/data/bender" }

/-- `Flaskbender` (src/lib.rs): webserver tuning. -/
structure Flaskbender where
  upload_limit : Nat
  upload_url : String
  job_cookie_name : String
deriving DecidableEq, Repr

/-- `Flaskbender::default`. -/
def Flaskbender.default : Flaskbender :=
  { upload_limit := 2
    upload_url := "http://localhost:5000/blendfiles/"
    job_cookie_name := "bender-renderjobs" }

/-- `RabbitMQ` (src/lib.rs): the message-queue URL. -/
structure RabbitMQ where
  url : String
deriving DecidableEq, Repr

/-- `RabbitMQ::default`. -/
def RabbitMQ.default : RabbitMQ :=
  { url := "amqp://localhost//" }

/-- `Janitor` (src/lib.rs): cleanup timing policy. -/
structure Janitor where
  checking_period_seconds : Nat
  error_deletion_min_minutes : Nat
  error_deletion_max_minutes : Nat
  finish_deletion_min_minutes : Nat
  finish_deletion_max_minutes : Nat
  cancel_deletion_min_minutes : Nat
  cancel_deletion_max_minutes : Nat
deriving DecidableEq, Repr

/-- `Janitor::default`. -/
def Janitor.default : Janitor :=
  { checking_period_seconds := 60
    error_deletion_min_minutes := 60 * 24
    error_deletion_max_minutes := 60 * 24 * 14
    finish_deletion_min_minutes := 60 * 24
    finish_deletion_max_minutes := 60 * 24 * 14
    cancel_deletion_min_minutes := 15
    cancel_deletion_max_minutes := 15 }

/-- `Worker` (src/lib.rs): worker tuning.  The `Uuid` id is modelled as its
hyphenated string form. -/
structure Worker where
  id : String
  disklimit : Nat
  grace_period : Nat
  workload : Nat
  heart_rate_seconds : Int
deriving DecidableEq, Repr

/-- `Worker::default`, parameterized by the fresh random UUID that
`Uuid::new_v4()` draws. -/
def Worker.defaultWith (freshId : String) : Worker :=
  { id := freshId
    disklimit := 2
    grace_period := 60
    workload := 1
    heart_rate_seconds := 10 }

/-- `Config` (src/lib.rs): the root configuration document. -/
structure Config where
  servername : String
  paths : Paths
  flaskbender : Flaskbender
  rabbitmq : RabbitMQ
  janitor : Janitor
  worker : Worker
deriving DecidableEq, Repr

/-- `Config::default`, parameterized by the fresh worker UUID. -/
def Config.defaultWith (freshId : String) : Config :=
  { servername := "bender.render"
    paths := Paths.default
    flaskbender := Flaskbender.default
    rabbitmq := RabbitMQ.default
    janitor := Janitor.default
    worker := Worker.defaultWith freshId }

-- ===================== wizard compare (reconciliation) ====================

/-- Operator responses for one `Paths::compare` run (one per differ-routed
field; `config` is never asked). -/
structure PathsOps where
  «private» : Operator String
  upload : Operator String

/-- `Paths::compare` (src/lib.rs): `config` is reset to the fixed constant
and never routed through the differ; `private` and `upload` are differ-ed.
Returns the rebuilt section and the number of interactive prompts shown. -/
def Paths.compare (self : Paths) (other : Option Paths) (ops : PathsOps)
    (w : Nat) : Option (Paths × Nat) :=
  match other with
  | some o =>
    match differ self.«private» (some o.«private») ops.«private» strBytes w with
    | none => none
    | some (priv, n1) =>
      match differ self.upload (some o.upload) ops.upload strBytes w with
      | none => none
      | some (upl, n2) =>
        some ({ config := "/etc/bender/config.toml", «private» := priv,
                upload := upl }, n1 + n2)
  | none =>
    match differ self.«private» none ops.«private» strBytes w with
    | none => none
    | some (priv, n1) =>
      match differ self.upload none ops.upload strBytes w with
      | none => none
      | some (upl, n2) =>
        some ({ config := "/etc/bender/config.toml", «private» := priv,
                upload := upl }, n1 + n2)

/-- Operator responses for one `Flaskbender::compare` run (`upload_url` is
never asked). -/
structure FlaskbenderOps where
  upload_limit : Operator Nat
  job_cookie_name : Operator String

/-- `Flaskbender::compare` (src/lib.rs): `upload_url` is reset to the fixed
constant (the differ call for it is commented out in the source). -/
def Flaskbender.compare (self : Flaskbender) (other : Option Flaskbender)
    (ops : FlaskbenderOps) (w : Nat) : Option (Flaskbender × Nat) :=
  match other with
  | some o =>
    match differ self.upload_limit (some o.upload_limit) ops.upload_limit
        natBytes w with
    | none => none
    | some (ul, n1) =>
      match differ self.job_cookie_name (some o.job_cookie_name)
          ops.job_cookie_name strBytes w with
      | none => none
      | some (jc, n2) =>
        some ({ upload_limit := ul,
                upload_url := "http://localhost:5000/blendfiles/",
                job_cookie_name := jc }, n1 + n2)
  | none =>
    match differ self.upload_limit none ops.upload_limit natBytes w with
    | none => none
    | some (ul, n1) =>
      match differ self.job_cookie_name none ops.job_cookie_name strBytes w with
      | none => none
      | some (jc, n2) =>
        some ({ upload_limit := ul,
                upload_url := "http://localhost:5000/blendfiles/",
                job_cookie_name := jc }, n1 + n2)

/-- Operator response for one `RabbitMQ::compare` run. -/
structure RabbitMQOps where
  url : Operator String

/-- `RabbitMQ::compare` (src/lib.rs). -/
def RabbitMQ.compare (self : RabbitMQ) (other : Option RabbitMQ)
    (ops : RabbitMQOps) (w : Nat) : Option (RabbitMQ × Nat) :=
  match other with
  | some o =>
    match differ self.url (some o.url) ops.url strBytes w with
    | none => none
    | some (u, n1) => some ({ url := u }, n1)
  | none =>
    match differ self.url none ops.url strBytes w with
    | none => none
    | some (u, n1) => some ({ url := u }, n1)

/-- Operator responses for one `Janitor::compare` run. -/
structure JanitorOps where
  checking_period_seconds : Operator Nat
  error_deletion_min_minutes : Operator Nat
  error_deletion_max_minutes : Operator Nat
  finish_deletion_min_minutes : Operator Nat
  finish_deletion_max_minutes : Operator Nat
  cancel_deletion_min_minutes : Operator Nat
  cancel_deletion_max_minutes : Operator Nat

/-- `Janitor::compare` (src/lib.rs): all seven fields are differ-ed in
declaration order. -/
def Janitor.compare (self : Janitor) (other : Option Janitor)
    (ops : JanitorOps) (w : Nat) : Option (Janitor × Nat) :=
  match other with
  | some o =>
    match differ self.checking_period_seconds (some o.checking_period_seconds)
        ops.checking_period_seconds natBytes w with
    | none => none
    | some (f1, n1) =>
      match differ self.error_deletion_min_minutes
          (some o.error_deletion_min_minutes) ops.error_deletion_min_minutes
          natBytes w with
      | none => none
      | some (f2, n2) =>
        match differ self.error_deletion_max_minutes
            (some o.error_deletion_max_minutes) ops.error_deletion_max_minutes
            natBytes w with
        | none => none
        | some (f3, n3) =>
          match differ self.finish_deletion_min_minutes
              (some o.finish_deletion_min_minutes)
              ops.finish_deletion_min_minutes natBytes w with
          | none => none
          | some (f4, n4) =>
            match differ self.finish_deletion_max_minutes
                (some o.finish_deletion_max_minutes)
                ops.finish_deletion_max_minutes natBytes w with
            | none => none
            | some (f5, n5) =>
              match differ self.cancel_deletion_min_minutes
                  (some o.cancel_deletion_min_minutes)
                  ops.cancel_deletion_min_minutes natBytes w with
              | none => none
              | some (f6, n6) =>
                match differ self.cancel_deletion_max_minutes
                    (some o.cancel_deletion_max_minutes)
                    ops.cancel_deletion_max_minutes natBytes w with
                | none => none
                | some (f7, n7) =>
                  some ({ checking_period_seconds := f1,
                          error_deletion_min_minutes := f2,
                          error_deletion_max_minutes := f3,
                          finish_deletion_min_minutes := f4,
                          finish_deletion_max_minutes := f5,
                          cancel_deletion_min_minutes := f6,
                          cancel_deletion_max_minutes := f7 },
                        n1 + n2 + n3 + n4 + n5 + n6 + n7)
  | none =>
    match differ self.checking_period_seconds none ops.checking_period_seconds
        natBytes w with
    | none => none
    | some (f1, n1) =>
      match differ self.error_deletion_min_minutes none
          ops.error_deletion_min_minutes natBytes w with
      | none => none
      | some (f2, n2) =>
        match differ self.error_deletion_max_minutes none
            ops.error_deletion_max_minutes natBytes w with
        | none => none
        | some (f3, n3) =>
          match differ self.finish_deletion_min_minutes none
              ops.finish_deletion_min_minutes natBytes w with
          | none => none
          | some (f4, n4) =>
            match differ self.finish_deletion_max_minutes none
                ops.finish_deletion_max_minutes natBytes w with
            | none => none
            | some (f5, n5) =>
              match differ self.cancel_deletion_min_minutes none
                  ops.cancel_deletion_min_minutes natBytes w with
              | none => none
              | some (f6, n6) =>
                match differ self.cancel_deletion_max_minutes none
                    ops.cancel_deletion_max_minutes natBytes w with
                | none => none
                | some (f7, n7) =>
                  some ({ checking_period_seconds := f1,
                          error_deletion_min_minutes := f2,
                          error_deletion_max_minutes := f3,
                          finish_deletion_min_minutes := f4,
                          finish_deletion_max_minutes := f5,
                          cancel_deletion_min_minutes := f6,
                          cancel_deletion_max_minutes := f7 },
                        n1 + n2 + n3 + n4 + n5 + n6 + n7)

/-- Operator responses for one `Worker::compare` run (`id` is never asked). -/
structure WorkerOps where
  disklimit : Operator Nat
  grace_period : Operator Nat
  workload : Operator Nat
  heart_rate_seconds : Operator Int

/-- `Worker::compare` (src/lib.rs): the four tuning fields are differ-ed,
while `id` is set to `Uuid::new_v4()` — the fresh random UUID is passed in as
`freshId`. -/
def Worker.compare (self : Worker) (other : Option Worker) (ops : WorkerOps)
    (freshId : String) (w : Nat) : Option (Worker × Nat) :=
  match other with
  | some o =>
    match differ self.disklimit (some o.disklimit) ops.disklimit natBytes w with
    | none => none
    | some (dl, n1) =>
      match differ self.grace_period (some o.grace_period) ops.grace_period
          natBytes w with
      | none => none
      | some (gp, n2) =>
        match differ self.workload (some o.workload) ops.workload natBytes w with
        | none => none
        | some (wl, n3) =>
          match differ self.heart_rate_seconds (some o.heart_rate_seconds)
              ops.heart_rate_seconds intBytes w with
          | none => none
          | some (hr, n4) =>
            some ({ id := freshId, disklimit := dl, grace_period := gp,
                    workload := wl, heart_rate_seconds := hr },
                  n1 + n2 + n3 + n4)
  | none =>
    match differ self.disklimit none ops.disklimit natBytes w with
    | none => none
    | some (dl, n1) =>
      match differ self.grace_period none ops.grace_period natBytes w with
      | none => none
      | some (gp, n2) =>
        match differ self.workload none ops.workload natBytes w with
        | none => none
        | some (wl, n3) =>
          match differ self.heart_rate_seconds none ops.heart_rate_seconds
              intBytes w with
          | none => none
          | some (hr, n4) =>
            some ({ id := freshId, disklimit := dl, grace_period := gp,
                    workload := wl, heart_rate_seconds := hr },
                  n1 + n2 + n3 + n4)

/-- The values the operator finally enters for each `Input` prompt of
`Worker::ask` (`none` = accept the shown default). -/
structure WorkerAskInputs where
  disklimit : Option Nat
  grace_period : Option Nat
  workload : Option Nat
  heart_rate_seconds : Option Int

/-- `Worker::ask` (src/lib.rs): prompts for the four tuning fields with their
documented defaults; `id` is set to `Uuid::new_v4()` (passed as `freshId`). -/
def Worker.ask (inputs : WorkerAskInputs) (freshId : String) : Worker :=
  { id := freshId
    disklimit := inputs.disklimit.getD 2
    grace_period := inputs.grace_period.getD 60
    workload := inputs.workload.getD 1
    heart_rate_seconds := inputs.heart_rate_seconds.getD 10 }

/-- Operator responses for one `Config::compare` run. -/
structure ConfigOps where
  servername : Operator String
  paths : PathsOps
  flaskbender : FlaskbenderOps
  rabbitmq : RabbitMQOps
  janitor : JanitorOps
  worker : WorkerOps

/-- `Config::compare` (src/lib.rs): differ the server name, then reconcile
each section in declaration order, passing the matching sub-section of the
candidate (or `None` throughout). -/
def Config.compare (self : Config) (other : Option Config) (ops : ConfigOps)
    (freshId : String) (w : Nat) : Option (Config × Nat) :=
  match other with
  | some o =>
    match differ self.servername (some o.servername) ops.servername
        strBytes w with
    | none => none
    | some (sn, n0) =>
      match self.paths.compare (some o.paths) ops.paths w with
      | none => none
      | some (p, n1) =>
        match self.flaskbender.compare (some o.flaskbender) ops.flaskbender w with
        | none => none
        | some (fb, n2) =>
          match self.rabbitmq.compare (some o.rabbitmq) ops.rabbitmq w with
          | none => none
          | some (rm, n3) =>
            match self.janitor.compare (some o.janitor) ops.janitor w with
            | none => none
            | some (ja, n4) =>
              match self.worker.compare (some o.worker) ops.worker freshId w with
              | none => none
              | some (wk, n5) =>
                some ({ servername := sn, paths := p, flaskbender := fb,
                        rabbitmq := rm, janitor := ja, worker := wk },
                      n0 + n1 + n2 + n3 + n4 + n5)
  | none =>
    match differ self.servername none ops.servername strBytes w with
    | none => none
    | some (sn, n0) =>
      match self.paths.compare none ops.paths w with
      | none => none
      | some (p, n1) =>
        match self.flaskbender.compare none ops.flaskbender w with
        | none => none
        | some (fb, n2) =>
          match self.rabbitmq.compare none ops.rabbitmq w with
          | none => none
          | some (rm, n3) =>
            match self.janitor.compare none ops.janitor w with
            | none => none
            | some (ja, n4) =>
              match self.worker.compare none ops.worker freshId w with
              | none => none
              | some (wk, n5) =>
                some ({ servername := sn, paths := p, flaskbender := fb,
                        rabbitmq := rm, janitor := ja, worker := wk },
                      n0 + n1 + n2 + n3 + n4 + n5)

-- ======================= serialization (toml level) =======================

/-- A TOML value, at the level the `toml`/`serde` pair works for this
document: strings, integers (TOML integers are signed), and tables. -/
inductive Toml where
  | str : String → Toml
  | int : Int → Toml
  | table : List (String × Toml) → Toml

/-- Key lookup in a TOML table (serde deserializes by field name). -/
def lookupT : List (String × Toml) → String → Option Toml
  | [], _ => none
  | (k', v) :: rest, k => if k' = k then some v else lookupT rest k

/-- Read a string field; a missing key takes the `#[serde(default)]` value,
a key of the wrong type is a deserialization error. -/
def getStr (kvs : List (String × Toml)) (k : String) (dflt : String) :
    Option String :=
  match lookupT kvs k with
  | none => some dflt
  | some (.str s) => some s
  | some _ => none

/-- Read a `usize`/`u64` field (a negative TOML integer refuses to
deserialize into an unsigned type). -/
def getNat (kvs : List (String × Toml)) (k : String) (dflt : Nat) :
    Option Nat :=
  match lookupT kvs k with
  | none => some dflt
  | some (.int n) => if 0 ≤ n then some n.toNat else none
  | some _ => none

/-- Read an `isize` field. -/
def getInt (kvs : List (String × Toml)) (k : String) (dflt : Int) :
    Option Int :=
  match lookupT kvs k with
  | none => some dflt
  | some (.int n) => some n
  | some _ => none

/-- `Paths` as serde/toml serializes it: a table in field-declaration
order. -/
def Paths.serialize (p : Paths) : Toml :=
  .table [("config", .str p.config), ("private", .str p.«private»),
          ("upload", .str p.upload)]

/-- `Paths` deserialization (`#[serde(default)]`: absent fields take their
`Paths::default` value). -/
def Paths.deserialize (t : Toml) : Option Paths :=
  match t with
  | .table kvs =>
    match getStr kvs "config" Paths.default.config,
          getStr kvs "private" Paths.default.«private»,
          getStr kvs "upload" Paths.default.upload with
    | some c, some pr, some u =>
      some { config := c, «private» := pr, upload := u }
    | _, _, _ => none
  | _ => none

/-- `Flaskbender` as serde/toml serializes it. -/
def Flaskbender.serialize (f : Flaskbender) : Toml :=
  .table [("upload_limit", .int f.upload_limit),
          ("upload_url", .str f.upload_url),
          ("job_cookie_name", .str f.job_cookie_name)]

/-- `Flaskbender` deserialization. -/
def Flaskbender.deserialize (t : Toml) : Option Flaskbender :=
  match t with
  | .table kvs =>
    match getNat kvs "upload_limit" Flaskbender.default.upload_limit,
          getStr kvs "upload_url" Flaskbender.default.upload_url,
          getStr kvs "job_cookie_name" Flaskbender.default.job_cookie_name with
    | some ul, some uu, some jc =>
      some { upload_limit := ul, upload_url := uu, job_cookie_name := jc }
    | _, _, _ => none
  | _ => none

/-- `RabbitMQ` as serde/toml serializes it. -/
def RabbitMQ.serialize (r : RabbitMQ) : Toml :=
  .table [("url", .str r.url)]

/-- `RabbitMQ` deserialization. -/
def RabbitMQ.deserialize (t : Toml) : Option RabbitMQ :=
  match t with
  | .table kvs =>
    match getStr kvs "url" RabbitMQ.default.url with
    | some u => some { url := u }
    | none => none
  | _ => none

/-- `Janitor` as serde/toml serializes it. -/
def Janitor.serialize (j : Janitor) : Toml :=
  .table [("checking_period_seconds", .int j.checking_period_seconds),
          ("error_deletion_min_minutes", .int j.error_deletion_min_minutes),
          ("error_deletion_max_minutes", .int j.error_deletion_max_minutes),
          ("finish_deletion_min_minutes", .int j.finish_deletion_min_minutes),
          ("finish_deletion_max_minutes", .int j.finish_deletion_max_minutes),
          ("cancel_deletion_min_minutes", .int j.cancel_deletion_min_minutes),
          ("cancel_deletion_max_minutes", .int j.cancel_deletion_max_minutes)]

/-- `Janitor` deserialization. -/
def Janitor.deserialize (t : Toml) : Option Janitor :=
  match t with
  | .table kvs =>
    match getNat kvs "checking_period_seconds"
            Janitor.default.checking_period_seconds,
          getNat kvs "error_deletion_min_minutes"
            Janitor.default.error_deletion_min_minutes,
          getNat kvs "error_deletion_max_minutes"
            Janitor.default.error_deletion_max_minutes,
          getNat kvs "finish_deletion_min_minutes"
            Janitor.default.finish_deletion_min_minutes,
          getNat kvs "finish_deletion_max_minutes"
            Janitor.default.finish_deletion_max_minutes,
          getNat kvs "cancel_deletion_min_minutes"
            Janitor.default.cancel_deletion_min_minutes,
          getNat kvs "cancel_deletion_max_minutes"
            Janitor.default.cancel_deletion_max_minutes with
    | some a, some b, some c, some d, some e, some f, some g =>
      some { checking_period_seconds := a,
             error_deletion_min_minutes := b,
             error_deletion_max_minutes := c,
             finish_deletion_min_minutes := d,
             finish_deletion_max_minutes := e,
             cancel_deletion_min_minutes := f,
             cancel_deletion_max_minutes := g }
    | _, _, _, _, _, _, _ => none
  | _ => none

/-- `Worker` as serde/toml serializes it (`uuid` serde support writes the id
as its hyphenated string). -/
def Worker.serialize (wk : Worker) : Toml :=
  .table [("id", .str wk.id),
          ("disklimit", .int wk.disklimit),
          ("grace_period", .int wk.grace_period),
          ("workload", .int wk.workload),
          ("heart_rate_seconds", .int wk.heart_rate_seconds)]

/-- `Worker` deserialization; a missing `id` takes `Worker::default`'s id,
which is a fresh `Uuid::new_v4()` — passed in as `freshId`. -/
def Worker.deserialize (freshId : String) (t : Toml) : Option Worker :=
  match t with
  | .table kvs =>
    match getStr kvs "id" freshId,
          getNat kvs "disklimit" (Worker.defaultWith freshId).disklimit,
          getNat kvs "grace_period" (Worker.defaultWith freshId).grace_period,
          getNat kvs "workload" (Worker.defaultWith freshId).workload,
          getInt kvs "heart_rate_seconds"
            (Worker.defaultWith freshId).heart_rate_seconds with
    | some i, some dl, some gp, some wl, some hr =>
      some { id := i, disklimit := dl, grace_period := gp, workload := wl,
             heart_rate_seconds := hr }
    | _, _, _, _, _ => none
  | _ => none

/-- `Config::serialize` (src/lib.rs, via `toml::to_string_pretty`), at the
TOML value level: the top-level scalar first, then one table per section, in
field-declaration order. -/
def Config.serialize (c : Config) : Toml :=
  .table [("servername", .str c.servername),
          ("paths", c.paths.serialize),
          ("flaskbender", c.flaskbender.serialize),
          ("rabbitmq", c.rabbitmq.serialize),
          ("janitor", c.janitor.serialize),
          ("worker", c.worker.serialize)]

/-- Read a section sub-table, defaulting the whole section when absent. -/
def getSection (kvs : List (String × Toml)) (k : String) (dflt : α)
    (des : Toml → Option α) : Option α :=
  match lookupT kvs k with
  | none => some dflt
  | some t => des t

/-- `Config::deserialize` (src/lib.rs, via `toml::from_str`), at the TOML
value level; `freshId` is the `Uuid::new_v4()` a defaulted `Worker` would
draw. -/
def Config.deserialize (freshId : String) (t : Toml) : Option Config :=
  match t with
  | .table kvs =>
    match getStr kvs "servername" "bender.render",
          getSection kvs "paths" Paths.default Paths.deserialize,
          getSection kvs "flaskbender" Flaskbender.default
            Flaskbender.deserialize,
          getSection kvs "rabbitmq" RabbitMQ.default RabbitMQ.deserialize,
          getSection kvs "janitor" Janitor.default Janitor.deserialize,
          getSection kvs "worker" (Worker.defaultWith freshId)
            (Worker.deserialize freshId) with
    | some sn, some p, some fb, some rm, some ja, some wk =>
      some { servername := sn, paths := p, flaskbender := fb, rabbitmq := rm,
             janitor := ja, worker := wk }
    | _, _, _, _, _, _ => none
  | _ => none

-- ====================== filesystem helper utilities =======================

/-- The `std::io::ErrorKind` cases `is_writeable` distinguishes. -/
inductive ErrKind where
  | permissionDenied
  | alreadyExists
  | other
deriving DecidableEq, Repr

/-- The outcomes of the individual filesystem operations one
`is_writeable` call performs, passed in as an environment (the real I/O is
outside the embedding). -/
structure FsEnv where
  /-- `p.extension().is_some()` — the source's "naive check" for a file. -/
  hasExtension : Bool
  /-- does the parent folder already exist? -/
  folderExists : Bool
  /-- outcome of `DirBuilder::create(&folder)` for the parent folder -/
  createFolder : Except ErrKind Unit
  /-- outcome of `OpenOptions::append(true).create(true).open(p)` -/
  openProbe : Except ErrKind Unit
  /-- outcome of `f.metadata()`, carrying `metadata.len()` on success -/
  metadataLen : Except ErrKind Nat
  /-- outcome of `fs::remove_file(p)` -/
  removeFile : Except ErrKind Unit
  /-- outcome of `DirBuilder::create(&self)` in the directory branch -/
  createDir : Except ErrKind Unit

/-- `PathMethods::is_writeable` (src/lib.rs): mirrors the source's control
flow over the environment's operation outcomes.  Note the metadata branch:
a metadata error is only printed (`eprintln!`) and the function still
returns `Ok(true)`. -/
def is_writeable (env : FsEnv) : Except ErrKind Bool :=
  if env.hasExtension then
    match (if env.folderExists then Except.ok () else env.createFolder) with
    | .error e => .error e
    | .ok _ =>
      match env.openProbe with
      | .ok _ =>
        match env.metadataLen with
        | .ok len =>
          if len = 0 then
            match env.removeFile with
            | .error e => .error e
            | .ok _ => .ok true
          else .ok true
        | .error _ => .ok true
      | .error .permissionDenied => .ok false
      | .error .alreadyExists => .ok true
      | .error .other => .error .other
  else
    match env.createDir with
    | .ok _ => .ok true
    | .error .permissionDenied => .ok false
    | .error .alreadyExists => .ok true
    | .error .other => .error .other

/-- An error out of `Config::read_changes`: opening/reading the file, or
deserializing its contents. -/
inductive ReadErr where
  | io
  | parse
deriving DecidableEq, Repr

/-- The environment of one `Config::read_changes` call: the outcome of
`File::open` + `read_to_string` on `self.paths.config`, and the `toml`
parser turning the raw text into a TOML value. -/
structure ReadEnv where
  readFile : Except ReadErr String
  parse : String → Option Toml

/-- `Config::read_changes` (src/lib.rs): open and read the file at
`self.paths.config`, deserialize, and only then assign `*self =
deserialized`.  Returns the `Result` together with the final value of
`self`. -/
def Config.read_changes (self : Config) (env : ReadEnv) (freshId : String) :
    Except ReadErr Unit × Config :=
  match env.readFile with
  | .error e => (.error e, self)
  | .ok contents =>
    match env.parse contents with
    | none => (.error .parse, self)
    | some t =>
      match Config.deserialize freshId t with
      | none => (.error .parse, self)
      | some newConfig => (.ok (), newConfig)

-- ====================== concrete sample data (defs) =======================

/-- The operator answer that always picks the first (default) select item. -/
def trivOp {T : Type} : Operator T := ⟨0, none⟩

/-- All-default operator answers for `Paths::compare`. -/
def trivPathsOps : PathsOps := ⟨trivOp, trivOp⟩

/-- All-default operator answers for `Flaskbender::compare`. -/
def trivFlaskbenderOps : FlaskbenderOps := ⟨trivOp, trivOp⟩

/-- All-default operator answers for `RabbitMQ::compare`. -/
def trivRabbitMQOps : RabbitMQOps := ⟨trivOp⟩

/-- All-default operator answers for `Janitor::compare`. -/
def trivJanitorOps : JanitorOps :=
  ⟨trivOp, trivOp, trivOp, trivOp, trivOp, trivOp, trivOp⟩

/-- All-default operator answers for `Worker::compare`. -/
def trivWorkerOps : WorkerOps := ⟨trivOp, trivOp, trivOp, trivOp⟩

/-- All-default operator answers for `Config::compare`. -/
def trivConfigOps : ConfigOps :=
  ⟨trivOp, trivPathsOps, trivFlaskbenderOps, trivRabbitMQOps, trivJanitorOps,
   trivWorkerOps⟩

/-- A filesystem environment in which the probe file opens fine but
retrieving its metadata fails with a non-permission I/O error. -/
def metaFailEnv : FsEnv :=
  { hasExtension := true
    folderExists := true
    createFolder := .ok ()
    openProbe := .ok ()
    metadataLen := .error .other
    removeFile := .ok ()
    createDir := .ok () }

/-- A read environment in which opening the configuration file fails. -/
def failReadEnv : ReadEnv :=
  { readFile := .error .io
    parse := fun _ => none }

/-- A filesystem environment in which opening the probe file fails with a
permission error. -/
def permEnv : FsEnv :=
  { hasExtension := true
    folderExists := true
    createFolder := .ok ()
    openProbe := .error .permissionDenied
    metadataLen := .ok 0
    removeFile := .ok ()
    createDir := .ok () }

-- ============================== theorems ==================================

/-- Helper: the differ's equality short-circuit, straight from the source's
`if this != that { ... } else { this }`. -/
theorem differ_self {T : Type} [DecidableEq T] (x : T) (op : Operator T)
    (render : T → List Nat) (w : Nat) :
    differ x (some x) op render w = some (x, 0) := by
  simp [differ]

/-- C1 (amended): the leaf differ returns `current` immediately with no
prompt when the candidate equals it; consequently
`Config::compare(current, Some(&current))` shows zero prompts and keeps
every differ-routed field, while the bypassed fields are recomputed: the
worker id is freshly regenerated and `paths.config` and
`flaskbender.upload_url` are reset to their fixed constants. -/
theorem c1_reconcile_self_silent :
    (∀ (T : Type) [DecidableEq T] (v : T) (op : Operator T)
        (render : T → List Nat) (w : Nat),
        differ v (some v) op render w = some (v, 0)) ∧
    (∀ (c : Config) (ops : ConfigOps) (freshId : String) (w : Nat),
        Config.compare c (some c) ops freshId w =
          some ({ c with
                  paths := { c.paths with config := "/etc/bender/config.toml" }
                  flaskbender := { c.flaskbender with
                                   upload_url := "http://localhost:5000/blendfiles/" }
                  worker := { c.worker with id := freshId } }, 0)) := by
  constructor
  · intro T _ v op render w
    exact differ_self v op render w
  · intro c ops freshId w
    simp [Config.compare, Paths.compare, Flaskbender.compare,
          RabbitMQ.compare, Janitor.compare, Worker.compare, differ_self]

/-- C1 counterexample: reconciling a document with itself does NOT return
the document unchanged — the worker id is regenerated (here the fresh draw
is `"bbb"` while the document holds `"aaa"`), so
`reconcile(current, Some(&current)) = current` fails as stated. -/
theorem c1_counterexample :
    Config.compare (Config.defaultWith "aaa") (some (Config.defaultWith "aaa"))
        trivConfigOps "bbb" 80 ≠ some (Config.defaultWith "aaa", 0) := by
  decide

/-- C2: when current and candidate differ, the ternary select returns the
candidate for choice 1 ("use candidate"), the current value for choice 0
("use current"), and for choice 2 (manual override) the value the operator
enters into an input pre-filled with `current` as the editable default — so
accepting the default yields `current`. -/
theorem c2_ternary_choice {T : Type} [DecidableEq T] (this that : T)
    (op : Operator T) (render : T → List Nat) (w : Nat) (res : T × Nat)
    (hne : this ≠ that)
    (h : differ this (some that) op render w = some res) :
    (op.choice = 1 → res.1 = that) ∧ (op.choice = 0 → res.1 = this) ∧
    (op.choice = 2 → res.1 = op.manualInput.getD this) ∧
    (op.choice = 2 → op.manualInput = none → res.1 = this) := by
  rcases hcp : compareprint (render this) (render that) w neSignB with _ | p <;>
    simp only [differ, if_neg hne, hcp] at h
  · exact absurd h (by simp)
  · split_ifs at h with h2 h1
    · rcases Option.some.injEq .. ▸ h with rfl
      exact ⟨fun hc => by omega, fun hc => by omega,
             fun _ => rfl, fun _ hm => by simp [hm]⟩
    · rcases Option.some.injEq .. ▸ h with rfl
      exact ⟨fun _ => rfl, fun hc => by omega, fun hc => by omega,
             fun hc _ => by omega⟩
    · rcases Option.some.injEq .. ▸ h with rfl
      exact ⟨fun hc => by omega, fun _ => rfl, fun hc => by omega,
             fun hc _ => by omega⟩

/-- C2 witness: at `current = 1`, `candidate = 2`, width 80, with the
operator choosing item 1, the theorem applies and the returned value is the
candidate. -/
theorem c2_ternary_choice_witness :
    ((⟨1, none⟩ : Operator Nat).choice = 1 → ((2 : Nat), 1).1 = 2) ∧
    ((⟨1, none⟩ : Operator Nat).choice = 0 → ((2 : Nat), 1).1 = 1) ∧
    ((⟨1, none⟩ : Operator Nat).choice = 2 →
       ((2 : Nat), 1).1 = (⟨1, none⟩ : Operator Nat).manualInput.getD 1) ∧
    ((⟨1, none⟩ : Operator Nat).choice = 2 →
       (⟨1, none⟩ : Operator Nat).manualInput = none → ((2 : Nat), 1).1 = 1) :=
  c2_ternary_choice (1 : Nat) 2 ⟨1, none⟩ natBytes 80 (2, 1) (by decide)
    (by decide)

/-- C3: every successful `Worker::compare` (with or without a candidate, for
any operator choices) sets the result's id to the freshly drawn UUID, so it
differs from `current`'s id whenever the fresh draw does; `Worker::ask`
likewise uses the fresh draw. -/
theorem c3_worker_id_regenerated :
    (∀ (self : Worker) (other : Option Worker) (ops : WorkerOps)
        (freshId : String) (w : Nat) (res : Worker × Nat),
        Worker.compare self other ops freshId w = some res →
        res.1.id = freshId ∧ (freshId ≠ self.id → res.1.id ≠ self.id)) ∧
    (∀ (inputs : WorkerAskInputs) (freshId : String),
        (Worker.ask inputs freshId).id = freshId) := by
  constructor
  · intro self other ops freshId w res h
    have hid : res.1.id = freshId := by
      rcases other with _ | o <;> simp only [Worker.compare] at h <;>
        repeat' split at h
      all_goals
        first
        | (injection h with h2; cases h2; rfl)
        | exact Option.noConfusion h
    exact ⟨hid, fun hne => by rw [hid]; exact hne⟩
  · intro inputs freshId
    rfl

/-- C3 witness: reconciling the worker whose stored id is `"aaa"` while the
fresh draw is `"bbb"` yields a section whose id is `"bbb"` and differs from
the stored one. -/
theorem c3_worker_id_regenerated_witness :
    ((({ id := "bbb", disklimit := 2, grace_period := 60, workload := 1,
         heart_rate_seconds := 10 } : Worker), 4).1.id = "bbb") ∧
    ((({ id := "bbb", disklimit := 2, grace_period := 60, workload := 1,
         heart_rate_seconds := 10 } : Worker), 4).1.id ≠
       (Worker.defaultWith "aaa").id) :=
  have h := c3_worker_id_regenerated.1 (Worker.defaultWith "aaa") none
    trivWorkerOps "bbb" 80
    (({ id := "bbb", disklimit := 2, grace_period := 60, workload := 1,
        heart_rate_seconds := 10 } : Worker), 4) (by decide)
  ⟨h.1, h.2 (by decide)⟩

/-- Helper: `Paths` serializes and deserializes back to itself. -/
theorem paths_roundtrip (p : Paths) : Paths.deserialize p.serialize = some p := by
  simp [Paths.serialize, Paths.deserialize, getStr, lookupT]

/-- Helper: `Flaskbender` serializes and deserializes back to itself. -/
theorem flaskbender_roundtrip (f : Flaskbender) :
    Flaskbender.deserialize f.serialize = some f := by
  simp [Flaskbender.serialize, Flaskbender.deserialize, getStr, getNat, lookupT,
        Int.toNat_natCast]

/-- Helper: `RabbitMQ` serializes and deserializes back to itself. -/
theorem rabbitmq_roundtrip (r : RabbitMQ) :
    RabbitMQ.deserialize r.serialize = some r := by
  simp [RabbitMQ.serialize, RabbitMQ.deserialize, getStr, lookupT]

/-- Helper: `Janitor` serializes and deserializes back to itself. -/
theorem janitor_roundtrip (j : Janitor) :
    Janitor.deserialize j.serialize = some j := by
  simp [Janitor.serialize, Janitor.deserialize, getNat, lookupT,
        Int.toNat_natCast]

/-- Helper: `Worker` serializes and deserializes back to itself. -/
theorem worker_roundtrip (fid : String) (wk : Worker) :
    Worker.deserialize fid wk.serialize = some wk := by
  simp [Worker.serialize, Worker.deserialize, getStr, getNat, getInt, lookupT,
        Int.toNat_natCast]

/-- C4: the round-trip property — deserializing the serialization of any
configuration document yields the document back, for any fresh-UUID draw the
deserializer might have needed for defaulted fields. -/
theorem c4_roundtrip (c : Config) (freshId : String) :
    Config.deserialize freshId (Config.serialize c) = some c := by
  simp [Config.serialize, Config.deserialize, getStr, getSection, lookupT,
        paths_roundtrip, flaskbender_roundtrip, rabbitmq_roundtrip,
        janitor_roundtrip, worker_roundtrip]

/-- Helper: with enough fuel, concatenating the chunks restores the list. -/
theorem chunksFuel_flatten {α : Type} (w : Nat) (hw : 1 ≤ w) :
    ∀ (fuel : Nat) (l : List α), l.length ≤ fuel →
      (chunksFuel w fuel l).flatten = l := by
  intro fuel
  induction fuel with
  | zero =>
    intro l hl
    cases l with
    | nil => rfl
    | cons a rest => simp at hl
  | succ fuel ih =>
    intro l hl
    cases l with
    | nil => rfl
    | cons a rest =>
      simp only [chunksFuel, if_neg (by omega : ¬ w = 0), List.flatten_cons]
      rw [ih ((a :: rest).drop w)
            (by simp only [List.length_drop, List.length_cons] at hl ⊢; omega)]
      exact List.take_append_drop w (a :: rest)

/-- Helper: every chunk has length at most `w`. -/
theorem mem_chunksFuel_length_le {α : Type} (w : Nat) :
    ∀ (fuel : Nat) (l : List α) (c : List α),
      c ∈ chunksFuel w fuel l → c.length ≤ w := by
  intro fuel
  induction fuel with
  | zero =>
    intro l c hc
    cases l <;> simp [chunksFuel] at hc
  | succ fuel ih =>
    intro l c hc
    cases l with
    | nil => simp [chunksFuel] at hc
    | cons a rest =>
      by_cases hw : w = 0
      · simp [chunksFuel, hw] at hc
      · simp only [chunksFuel, if_neg hw, List.mem_cons] at hc
        rcases hc with rfl | hc
        · exact (a :: rest).length_take_le w
        · exact ih _ _ hc

/-- Helper: concatenating `chunks w l` restores `l` when `w >= 1`. -/
theorem chunks_flatten {α : Type} (w : Nat) (hw : 1 ≤ w) (l : List α) :
    (chunks w l).flatten = l :=
  chunksFuel_flatten w hw l.length l le_rfl

/-- C5 (amended): for `w >= 1` no line returned by `wrap` exceeds length
`w`, and the concatenation of the returned lines equals `s` whenever every
`w`-byte chunk of `s` is valid UTF-8 (in particular for ASCII input); an
invalid chunk is dropped by the filter, so the multiple-of-`w` condition
alone does not suffice. -/
theorem c5_wrap_amended (s : List Nat) (w : Nat) (hw : 1 ≤ w) :
    (∀ line ∈ wrap s w, line.length ≤ w) ∧
    ((∀ c ∈ chunks w s, utf8Valid c) → (wrap s w).flatten = s) := by
  constructor
  · intro line hl
    exact mem_chunksFuel_length_le w s.length s line (List.mem_of_mem_filter hl)
  · intro hv
    unfold wrap
    rw [List.filter_eq_self.mpr hv]
    exact chunks_flatten w hw s

/-- C5 counterexample: `s = [0xC3, 0xA9]` (the two bytes of `\u{e9}`),
`w = 1`: the byte length 2 is a multiple of 1, yet both one-byte chunks are
invalid UTF-8, both are dropped, and the concatenation of the returned lines
is empty rather than `s`. -/
theorem c5_counterexample :
    (1 : Nat) ≤ 1 ∧ List.length [195, 169] % 1 = 0 ∧
    (wrap [195, 169] 1).flatten ≠ [195, 169] := by
  decide

/-- C5 witness: wrapping the ASCII bytes of `"hello"` at width 2 satisfies
the amended theorem's hypotheses and concatenates back to the input. -/
theorem c5_wrap_amended_witness :
    ([104, 101] : List Nat).length ≤ 2 ∧
    (wrap [104, 101, 108, 108, 111] 2).flatten = [104, 101, 108, 108, 111] :=
  have h := c5_wrap_amended [104, 101, 108, 108, 111] 2 (by decide)
  ⟨h.1 [104, 101] (by decide), h.2 (by decide)⟩


/-- Helper: a successful checked subtraction certifies no underflow. -/
theorem checkedSub_eq_some {a b v : Nat} (h : checkedSub a b = some v) :
    b ≤ a ∧ v = a - b := by
  unfold checkedSub at h
  split_ifs at h with hb
  exact ⟨hb, (Option.some.injEq .. ▸ h).symm⟩

/-- Helper: the ellipsis marker is at most three characters. -/
theorem charCount_dotsIf_le (t : List (List Nat)) : charCount (dotsIf t) ≤ 3 := by
  unfold dotsIf
  split <;> decide

/-- Helper: a byte string has at most as many characters as bytes. -/
theorem charCount_le_length (l : List Nat) : charCount l ≤ l.length :=
  List.countP_le_length _

/-- Helper: character counts add over concatenation. -/
theorem charCount_append (l m : List Nat) :
    charCount (l ++ m) = charCount l + charCount m :=
  List.countP_append _ _ _

/-- Helper: every line returned by `wrap` has at most `w` bytes. -/
theorem mem_wrap_length_le {s : List Nat} {w : Nat} {c : List Nat}
    (h : c ∈ wrap s w) : c.length ≤ w :=
  mem_chunksFuel_length_le w s.length s c (List.mem_of_mem_filter h)

/-- C6: whenever `compareprint` completes, the rendered text of each side —
its first wrapped line plus the ellipsis marker when the value was truncated
— has at most `(width - separatorWidth)/2` characters. -/
theorem c6_banner_halfwidth_bound (lB rB : List Nat) (w : Nat) (sB : List Nat)
    (L R : List Nat) (h : compareprint lB rB w sB = some (L, R)) :
    charCount L ≤ (w - charCount sB) / 2 ∧
    charCount R ≤ (w - charCount sB) / 2 := by
  unfold compareprint at h
  repeat' split at h
  any_goals exact Option.noConfusion h
  rename_i x5 halfwidth h1 x4 hw4 h2 hz x3 x2 l0 ltl r0 rtl heqL heqR x1 x0
    v1 v2 h3 h4
  injection h with h'
  injection h' with hL hR
  subst hL
  subst hR
  obtain ⟨hsc, rfl⟩ := checkedSub_eq_some h1
  obtain ⟨h4le, rfl⟩ := checkedSub_eq_some h2
  have hl0 : l0.length ≤ w / 2 - charCount sB / 2 - 4 :=
    mem_wrap_length_le (by rw [heqL]; exact List.mem_cons_self l0 ltl)
  have hr0 : r0.length ≤ w / 2 - charCount sB / 2 - 4 :=
    mem_wrap_length_le (by rw [heqR]; exact List.mem_cons_self r0 rtl)
  have hcl := charCount_le_length l0
  have hcr := charCount_le_length r0
  have hdl := charCount_dotsIf_le ltl
  have hdr := charCount_dotsIf_le rtl
  rw [charCount_append, charCount_append]
  omega

/-- C6 witness: at width 80 with separator `"!="`, comparing `"1"` and `"2"`
renders sides of one character each, within the bound. -/
theorem c6_banner_halfwidth_bound_witness :
    charCount [49] ≤ (80 - charCount neSignB) / 2 ∧
    charCount [50] ≤ (80 - charCount neSignB) / 2 :=
  c6_banner_halfwidth_bound [49] [50] 80 neSignB [49] [50] (by decide)

/-- C10: `compareprint` completes only when the halfwidth subtractions do
not underflow (and leave at least one byte of room) and neither side's wrap
is empty; an empty side always panics, and `differ` on unequal values
propagates the panic — in particular at every terminal width up to 11 with
the `"!="` separator. -/
theorem c10_compareprint_totality :
    (∀ (lB rB : List Nat) (w : Nat) (sB : List Nat) (out : List Nat × List Nat),
        compareprint lB rB w sB = some out →
        charCount sB / 2 ≤ w / 2 ∧ 5 ≤ w / 2 - charCount sB / 2 ∧
        wrap lB (w / 2 - charCount sB / 2 - 4) ≠ [] ∧
        wrap rB (w / 2 - charCount sB / 2 - 4) ≠ []) ∧
    (∀ (rB : List Nat) (w : Nat) (sB : List Nat),
        compareprint [] rB w sB = none) ∧
    (∀ (lB : List Nat) (w : Nat) (sB : List Nat),
        compareprint lB [] w sB = none) ∧
    (∀ (T : Type) [DecidableEq T] (this that : T) (op : Operator T)
        (render : T → List Nat) (w : Nat),
        this ≠ that →
        compareprint (render this) (render that) w neSignB = none →
        differ this (some that) op render w = none) ∧
    (∀ (lB rB : List Nat) (w : Nat), w ≤ 11 →
        compareprint lB rB w neSignB = none) := by
  refine ⟨?_, ?_, ?_, ?_, ?_⟩
  · intro lB rB w sB out h
    unfold compareprint at h
    repeat' split at h
    any_goals exact Option.noConfusion h
    rename_i x5 halfwidth h1 x4 hw4 h2 hz x3 x2 l0 ltl r0 rtl heqL heqR x1 x0
      v1 v2 h3 h4
    obtain ⟨hsc, rfl⟩ := checkedSub_eq_some h1
    obtain ⟨h4le, rfl⟩ := checkedSub_eq_some h2
    exact ⟨hsc, by omega, by simp [heqL], by simp [heqR]⟩
  · intro rB w sB
    rcases h : compareprint [] rB w sB with _ | out
    · rfl
    · exfalso
      unfold compareprint at h
      repeat' split at h
      any_goals exact Option.noConfusion h
      rename_i x5 halfwidth h1 x4 hw4 h2 hz x3 x2 l0 ltl r0 rtl heqL heqR x1 x0
        v1 v2 h3 h4
      simp [wrap, chunks, chunksFuel] at heqL
  · intro lB w sB
    rcases h : compareprint lB [] w sB with _ | out
    · rfl
    · exfalso
      unfold compareprint at h
      repeat' split at h
      any_goals exact Option.noConfusion h
      rename_i x5 halfwidth h1 x4 hw4 h2 hz x3 x2 l0 ltl r0 rtl heqL heqR x1 x0
        v1 v2 h3 h4
      simp [wrap, chunks, chunksFuel] at heqR
  · intro T _ this that op render w hne hcp
    simp only [differ, if_neg hne, hcp]
  · intro lB rB w hw
    interval_cases w <;> rfl

/-- C10 witness: at width 80 the banner for `"1"` vs `"2"` succeeds and the
certified conditions hold; at width 5 the unequal differ panics, as does
`compareprint` itself at width 11. -/
theorem c10_compareprint_totality_witness :
    (charCount neSignB / 2 ≤ 80 / 2 ∧ 5 ≤ 80 / 2 - charCount neSignB / 2 ∧
     wrap [49] (80 / 2 - charCount neSignB / 2 - 4) ≠ [] ∧
     wrap [50] (80 / 2 - charCount neSignB / 2 - 4) ≠ []) ∧
    differ (1 : Nat) (some 2) ⟨0, none⟩ natBytes 5 = none ∧
    compareprint [49] [50] 11 neSignB = none :=
  ⟨c10_compareprint_totality.1 [49] [50] 80 neSignB ([49], [50]) (by decide),
   c10_compareprint_totality.2.2.2.1 Nat 1 2 ⟨0, none⟩ natBytes 5 (by decide)
     (by decide),
   c10_compareprint_totality.2.2.2.2 [49] [50] 11 (by decide)⟩

/-- C7 counterexample: with the probe file opening fine but metadata
retrieval failing with a non-permission I/O error, `is_writeable` swallows
the failure (only `eprintln!`-ing it) and returns `Ok(true)` instead of
propagating an `Err`, contrary to the claim. -/
theorem c7_counterexample :
    is_writeable metaFailEnv = Except.ok true ∧
    metaFailEnv.metadataLen = Except.error ErrKind.other :=
  ⟨rfl, rfl⟩

/-- C7 (amended): `Ok(false)` arises only from a `PermissionDenied` on the
probe open (file branch) or on directory creation (directory branch);
failures of parent-directory creation, probe open and probe deletion are
propagated as `Err` - but a metadata-retrieval failure is logged and
swallowed, with the function returning `Ok(true)`. -/
theorem c7_is_writeable_amended :
    (∀ env : FsEnv, is_writeable env = .ok false →
        (env.hasExtension = true ∧
           env.openProbe = .error .permissionDenied) ∨
        (env.hasExtension = false ∧
           env.createDir = .error .permissionDenied)) ∧
    (∀ (env : FsEnv) (e : ErrKind), env.hasExtension = true →
        env.folderExists = false → env.createFolder = .error e →
        is_writeable env = .error e) ∧
    (∀ env : FsEnv, env.hasExtension = true → env.folderExists = true →
        env.openProbe = .error .other → is_writeable env = .error .other) ∧
    (∀ (env : FsEnv) (e : ErrKind), env.hasExtension = true →
        env.folderExists = true → env.openProbe = .ok () →
        env.metadataLen = .ok 0 → env.removeFile = .error e →
        is_writeable env = .error e) ∧
    (∀ (env : FsEnv) (e : ErrKind), env.hasExtension = true →
        env.folderExists = true → env.openProbe = .ok () →
        env.metadataLen = .error e → is_writeable env = .ok true) ∧
    (∀ env : FsEnv, env.hasExtension = false →
        env.createDir = .error .other → is_writeable env = .error .other) := by
  refine ⟨?_, ?_, ?_, ?_, ?_, ?_⟩
  · intro env h
    by_cases hx : env.hasExtension = true
    · left
      refine ⟨hx, ?_⟩
      simp only [is_writeable, hx, if_true] at h
      rcases hfs : (if env.folderExists then Except.ok () else env.createFolder)
          with e' | u' <;> rw [hfs] at h
      · simp_all
      · rcases hop : env.openProbe with e | u <;> rw [hop] at h
        · rcases e with _ | _ | _ <;> simp_all
        · rcases hml : env.metadataLen with em | len <;> rw [hml] at h <;>
            simp_all
          split_ifs at h with hlen
          · rcases hrm : env.removeFile with er | ur <;> rw [hrm] at h <;>
              simp_all
          · simp_all
    · right
      have hx' : env.hasExtension = false := by
        cases hxe : env.hasExtension
        · rfl
        · exact absurd hxe hx
      refine ⟨hx', ?_⟩
      simp only [is_writeable, hx', Bool.false_eq_true, if_false] at h
      rcases hcd : env.createDir with e | u <;> rw [hcd] at h
      · rcases e with _ | _ | _ <;> simp_all
      · simp_all
  · intro env e hx hfe hcf
    simp [is_writeable, hx, hfe, hcf]
  · intro env hx hfo hop
    simp [is_writeable, hx, hfo, hop]
  · intro env e hx hfo hop hml hrm
    simp [is_writeable, hx, hfo, hop, hml, hrm]
  · intro env e hx hfo hop hml
    simp [is_writeable, hx, hfo, hop, hml]
  · intro env hx hcd
    simp [is_writeable, hx, hcd]


/-- C7 witness: in the environment where the probe open reports
`PermissionDenied`, the amended theorem applies and certifies the
permission-denied provenance of the `Ok(false)`. -/
theorem c7_is_writeable_amended_witness :
    (permEnv.hasExtension = true ∧
       permEnv.openProbe = Except.error ErrKind.permissionDenied) ∨
    (permEnv.hasExtension = false ∧
       permEnv.createDir = Except.error ErrKind.permissionDenied) :=
  c7_is_writeable_amended.1 permEnv (by rfl)

/-- C8: every successful `Paths::compare` result has the fixed
configuration path and every successful `Flaskbender::compare` result has
the fixed upload URL; moreover the values of those two fields in `current`
and in the candidate have no effect whatsoever on the outcome (result or
prompts) - they bypass the differ. -/
theorem c8_bypassed_fields :
    (∀ (p : Paths) (other : Option Paths) (ops : PathsOps) (w : Nat)
        (res : Paths × Nat), Paths.compare p other ops w = some res →
        res.1.config = "/etc/bender/config.toml") ∧
    (∀ (fb : Flaskbender) (other : Option Flaskbender) (ops : FlaskbenderOps)
        (w : Nat) (res : Flaskbender × Nat),
        Flaskbender.compare fb other ops w = some res →
        res.1.upload_url = "http://localhost:5000/blendfiles/") ∧
    (∀ (p : Paths) (other : Option Paths) (ops : PathsOps) (w : Nat)
        (x y : String),
        Paths.compare { p with config := x }
          (other.map fun o => { o with config := y }) ops w =
        Paths.compare p other ops w) ∧
    (∀ (fb : Flaskbender) (other : Option Flaskbender) (ops : FlaskbenderOps)
        (w : Nat) (x y : String),
        Flaskbender.compare { fb with upload_url := x }
          (other.map fun o => { o with upload_url := y }) ops w =
        Flaskbender.compare fb other ops w) := by
  refine ⟨?_, ?_, ?_, ?_⟩
  · intro p other ops w res h
    rcases other with _ | o <;> simp only [Paths.compare] at h <;>
      repeat' split at h
    all_goals
      first
      | (injection h with h2; cases h2; rfl)
      | exact Option.noConfusion h
  · intro fb other ops w res h
    rcases other with _ | o <;> simp only [Flaskbender.compare] at h <;>
      repeat' split at h
    all_goals
      first
      | (injection h with h2; cases h2; rfl)
      | exact Option.noConfusion h
  · intro p other ops w x y
    rcases other with _ | o <;> rfl
  · intro fb other ops w x y
    rcases other with _ | o <;> rfl

/-- C8 witness: reconciling the default sections at width 80 succeeds and
the fixed fields hold their constants. -/
theorem c8_bypassed_fields_witness :
    ((Paths.default, 0).1.config = "/etc/bender/config.toml") ∧
    ((Flaskbender.default, 0).1.upload_url =
       "http://localhost:5000/blendfiles/") :=
  ⟨c8_bypassed_fields.1 Paths.default (some Paths.default) trivPathsOps 80
     (Paths.default, 0) (by decide),
   c8_bypassed_fields.2.1 Flaskbender.default (some Flaskbender.default)
     trivFlaskbenderOps 80 (Flaskbender.default, 0) (by decide)⟩

/-- C9: `read_changes` is atomic on error - if reading or deserializing
fails, `self` is exactly the prior value; and whenever `self` did change,
the file was read and its contents fully deserialized to the new value. -/
theorem c9_read_changes_atomic :
    (∀ (c : Config) (env : ReadEnv) (fid : String) (e : ReadErr),
        (Config.read_changes c env fid).1 = .error e →
        (Config.read_changes c env fid).2 = c) ∧
    (∀ (c : Config) (env : ReadEnv) (fid : String),
        (Config.read_changes c env fid).2 ≠ c →
        ∃ contents t, env.readFile = .ok contents ∧
          env.parse contents = some t ∧
          Config.deserialize fid t =
            some ((Config.read_changes c env fid).2)) := by
  constructor
  · intro c env fid e h
    rcases hrf : env.readFile with er | contents
    · simp [Config.read_changes, hrf]
    · rcases hp : env.parse contents with _ | t
      · simp [Config.read_changes, hrf, hp]
      · rcases hd : Config.deserialize fid t with _ | nc
        · simp [Config.read_changes, hrf, hp, hd]
        · exfalso
          simp [Config.read_changes, hrf, hp, hd] at h
  · intro c env fid h
    rcases hrf : env.readFile with er | contents
    · exact absurd (by simp [Config.read_changes, hrf]) h
    · rcases hp : env.parse contents with _ | t
      · exact absurd (by simp [Config.read_changes, hrf, hp]) h
      · rcases hd : Config.deserialize fid t with _ | nc
        · exact absurd (by simp [Config.read_changes, hrf, hp, hd]) h
        · exact ⟨contents, t, rfl, hp,
            by simp [Config.read_changes, hrf, hp, hd]⟩

/-- C9 witness: with the file failing to open, the configuration is left
untouched. -/
theorem c9_read_changes_atomic_witness :
    (Config.read_changes (Config.defaultWith "aaa") failReadEnv "bbb").2 =
      Config.defaultWith "aaa" :=
  c9_read_changes_atomic.1 (Config.defaultWith "aaa") failReadEnv "bbb"
    ReadErr.io (by rfl)


end BenderConfig
